import Mathlib

/-!
# Verification of the Aime multi-agent framework prototype

A shallow embedding of the core of the `aime-reproduction` repository
(`planner.py`, `factory.py`, `progress.py`, `actor.py`, `utils.py`) together
with theorems settling the specification claims about it.

Modelling conventions:
* Python machine-level effects that are pure I/O (logging, timing, writing the
  state file) are omitted; the source logs/persists on a best-effort basis and
  a persistence failure never changes the in-memory state.
* Wall-clock timestamps (`datetime.now()`, `time.time()`) are threaded as
  explicit `Nat` arguments where a claim depends on them (the progress
  manager), and omitted where no claim mentions them (transient step records).
* The generative backend (`LLMClient.generate`) is modelled by the sequence of
  response strings it produces; all theorems quantify over every such
  sequence, so the prompt text (which only selects which sequence occurs) is
  not reproduced.
* Python `str.lower`, `str.strip` and the regex `\s` class are modelled on
  their ASCII fragment; every keyword and delimiter the code compares against
  is ASCII or Chinese (uncased), so the difference is immaterial to the
  claims.
-/

namespace Aime

/-! ## Generic string helpers (Python `in`, `split`, slicing) -/

/-- `listStartsWith hay pat` : `pat` is a leading segment of `hay`. -/
def listStartsWith : List Char → List Char → Bool
  | _, [] => true
  | [], _ :: _ => false
  | c :: cs, d :: ds => c = d && listStartsWith cs ds

/-- `strContainsAux hay pat` : `pat` occurs contiguously inside `hay`. -/
def strContainsAux : List Char → List Char → Bool
  | [], pat => listStartsWith [] pat
  | c :: cs, pat => listStartsWith (c :: cs) pat || strContainsAux cs pat

/-- Python `pat in hay` for strings (substring containment). -/
def strContains (hay pat : String) : Bool :=
  strContainsAux hay.toList pat.toList

/-- First occurrence split: `splitOnceAux pat hay = some (before, after)`
    where `hay = before ++ pat ++ after`, at the leftmost occurrence. -/
def splitOnceAux (pat : List Char) : List Char → Option (List Char × List Char)
  | [] => if pat = [] then some ([], []) else none
  | c :: cs =>
    if listStartsWith (c :: cs) pat then
      some ([], (c :: cs).drop pat.length)
    else
      (splitOnceAux pat cs).map (fun p => (c :: p.1, p.2))

/-- Python `s.split(pat, 1)` restricted to its two halves (present only when
    `pat in s`). -/
def pySplitOnce (s pat : String) : Option (String × String) :=
  (splitOnceAux pat.toList s.toList).map (fun p => (String.mk p.1, String.mk p.2))

/-- Python slicing `s[:n]` (by code points). -/
def pyTake (n : Nat) (s : String) : String :=
  String.mk (s.toList.take n)

/-- Python `s.startswith(pat)`. -/
def pyStartsWith (s pat : String) : Bool :=
  listStartsWith s.toList pat.toList

/-- The ASCII fragment of Python's whitespace class (`str.strip` and the
    regex `\s`). -/
def isPyWs (c : Char) : Bool :=
  c = ' ' || c = '\t' || c = '\n' || c = '\r' || c = '\x0b' || c = '\x0c'

/-- Python `s.strip()` (ASCII-whitespace fragment). -/
def pyStrip (s : String) : String :=
  String.mk (((s.toList.dropWhile isPyWs).reverse.dropWhile isPyWs).reverse)

/-- Python `s.lower()` (ASCII fragment; the compared keywords are ASCII
    lowercase or Chinese, which `lower` leaves unchanged). -/
def pyLower (s : String) : String :=
  String.mk (s.toList.map Char.toLower)

/-- Python `s.split("\n")` (its splitting loop, list-based). -/
def splitLinesAux : List Char → List Char → List String
  | [], acc => [String.mk acc.reverse]
  | c :: cs, acc =>
    if c = '\n' then String.mk acc.reverse :: splitLinesAux cs []
    else splitLinesAux cs (c :: acc)

/-- Python `s.split("\n")`. -/
def pySplitLines (s : String) : List String :=
  splitLinesAux s.toList []

/-! ## JSON values and `json.loads` (`utils.safe_json_parse` dependency)

`json.loads` is Python standard library; it is embedded as a recursive
descent parser over the JSON grammar.  Numbers are kept as their lexemes:
no claim depends on numeric values, only on the shape of the parsed value. -/

inductive JValue where
  | null
  | bool (b : Bool)
  | num (lexeme : String)
  | str (s : String)
  | arr (elems : List JValue)
  | obj (fields : List (String × JValue))
deriving Repr

/-- Skip JSON whitespace. -/
def skipWs : List Char → List Char
  | c :: cs => if c = ' ' || c = '\t' || c = '\n' || c = '\r' then skipWs cs else c :: cs
  | [] => []

def isJsonDigit (c : Char) : Bool := '0' ≤ c && c ≤ '9'

def isHexDigit (c : Char) : Bool :=
  isJsonDigit c || ('a' ≤ c && c ≤ 'f') || ('A' ≤ c && c ≤ 'F')

def hexVal (c : Char) : Nat :=
  if isJsonDigit c then c.toNat - '0'.toNat
  else if 'a' ≤ c && c ≤ 'f' then c.toNat - 'a'.toNat + 10
  else c.toNat - 'A'.toNat + 10

def escMap (c : Char) : Option Char :=
  if c = '"' then some '"'
  else if c = '\\' then some '\\'
  else if c = '/' then some '/'
  else if c = 'b' then some '\x08'
  else if c = 'f' then some '\x0c'
  else if c = 'n' then some '\n'
  else if c = 'r' then some '\r'
  else if c = 't' then some '\t'
  else none

/-- Parse a JSON string body (the opening quote already consumed). -/
def parseJString : List Char → Option (String × List Char)
  | [] => none
  | c :: cs =>
    if c = '"' then some ("", cs)
    else if c = '\\' then
      match cs with
      | [] => none
      | e :: cs' =>
        if e = 'u' then
          match cs' with
          | h1 :: h2 :: h3 :: h4 :: cs'' =>
            if isHexDigit h1 && isHexDigit h2 && isHexDigit h3 && isHexDigit h4 then
              (parseJString cs'').map (fun p =>
                (String.mk
                  [Char.ofNat (((hexVal h1 * 16 + hexVal h2) * 16 + hexVal h3) * 16 + hexVal h4)]
                  ++ p.1, p.2))
            else none
          | _ => none
        else
          match escMap e with
          | some r => (parseJString cs').map (fun p => (String.mk [r] ++ p.1, p.2))
          | none => none
    else if c.toNat < 0x20 then none
    else (parseJString cs).map (fun p => (String.mk [c] ++ p.1, p.2))

/-- Parse a JSON number lexeme:  `-? (0 | [1-9][0-9]*) (. [0-9]+)? ([eE][+-]?[0-9]+)?`. -/
def parseJNumber (cs : List Char) : Option (String × List Char) :=
  let signed : String × List Char :=
    match cs with
    | '-' :: r => ("-", r)
    | _ => ("", cs)
  match signed.2 with
  | [] => none
  | c :: r =>
    if c = '0' then
      parseJNumberFrac (signed.1 ++ "0") r
    else if isJsonDigit c then
      let ds := r.takeWhile isJsonDigit
      parseJNumberFrac (signed.1 ++ String.mk (c :: ds)) (r.dropWhile isJsonDigit)
    else none
where
  parseJNumberFrac (lex : String) (cs : List Char) : Option (String × List Char) :=
    match cs with
    | '.' :: r =>
      let ds := r.takeWhile isJsonDigit
      if ds = [] then none
      else parseJNumberExp (lex ++ "." ++ String.mk ds) (r.dropWhile isJsonDigit)
    | _ => parseJNumberExp lex cs
  parseJNumberExp (lex : String) (cs : List Char) : Option (String × List Char) :=
    match cs with
    | c :: r =>
      if c = 'e' || c = 'E' then
        let signed : String × List Char :=
          match r with
          | '+' :: r' => ("+", r')
          | '-' :: r' => ("-", r')
          | _ => ("", r)
        let ds := signed.2.takeWhile isJsonDigit
        if ds = [] then none
        else some (lex ++ String.mk [c] ++ signed.1 ++ String.mk ds,
                   signed.2.dropWhile isJsonDigit)
      else some (lex, c :: r)
    | [] => some (lex, [])

/-- Mode of the JSON parser: a single value, the members of an object (after
    the `\x7b`), or the elements of an array (after the `[`). -/
inductive JPMode where
  | value
  | members
  | elems

/-- Result of one parsing mode. -/
inductive JPOut where
  | value (v : JValue)
  | members (fields : List (String × JValue))
  | elems (vs : List JValue)

/-- Recursive-descent JSON parser, structurally recursive on fuel so that the
    kernel can evaluate it. -/
def parseJ : Nat → JPMode → List Char → Option (JPOut × List Char)
  | 0, _, _ => none
  | fuel + 1, .value, cs =>
    match skipWs cs with
    | [] => none
    | c :: rest =>
      if c = '\x7b' then
        match skipWs rest with
        | '\x7d' :: rest2 => some (.value (.obj []), rest2)
        | _ =>
          match parseJ fuel .members rest with
          | some (.members fields, rest2) => some (.value (.obj fields), rest2)
          | _ => none
      else if c = '[' then
        match skipWs rest with
        | ']' :: rest2 => some (.value (.arr []), rest2)
        | _ =>
          match parseJ fuel .elems rest with
          | some (.elems vs, rest2) => some (.value (.arr vs), rest2)
          | _ => none
      else if c = '"' then
        match parseJString rest with
        | some (s, rest2) => some (.value (.str s), rest2)
        | none => none
      else if listStartsWith (c :: rest) "true".toList then
        some (.value (.bool true), rest.drop 3)
      else if listStartsWith (c :: rest) "false".toList then
        some (.value (.bool false), rest.drop 4)
      else if listStartsWith (c :: rest) "null".toList then
        some (.value .null, rest.drop 3)
      else if listStartsWith (c :: rest) "NaN".toList then
        some (.value (.num "NaN"), rest.drop 2)
      else if listStartsWith (c :: rest) "Infinity".toList then
        some (.value (.num "Infinity"), rest.drop 7)
      else if listStartsWith (c :: rest) "-Infinity".toList then
        some (.value (.num "-Infinity"), rest.drop 8)
      else
        match parseJNumber (c :: rest) with
        | some (lex, rest2) => some (.value (.num lex), rest2)
        | none => none
  | fuel + 1, .members, cs =>
    match skipWs cs with
    | '"' :: rest =>
      match parseJString rest with
      | some (key, rest2) =>
        (match skipWs rest2 with
         | ':' :: rest3 =>
           match parseJ fuel .value rest3 with
           | some (.value v, rest4) =>
             (match skipWs rest4 with
              | ',' :: rest5 =>
                (match parseJ fuel .members rest5 with
                 | some (.members fields, rest6) => some (.members ((key, v) :: fields), rest6)
                 | _ => none)
              | '\x7d' :: rest5 => some (.members [(key, v)], rest5)
              | _ => none)
           | _ => none
         | _ => none)
      | none => none
    | _ => none
  | fuel + 1, .elems, cs =>
    match parseJ fuel .value cs with
    | some (.value v, rest) =>
      (match skipWs rest with
       | ',' :: rest2 =>
         (match parseJ fuel .elems rest2 with
          | some (.elems vs, rest3) => some (.elems (v :: vs), rest3)
          | _ => none)
       | ']' :: rest2 => some (.elems [v], rest2)
       | _ => none)
    | _ => none

/-- Python `json.loads`: parse one JSON document, allowing surrounding
    whitespace, demanding the whole input be consumed.  `none` models
    `json.JSONDecodeError`. -/
def jsonLoads (s : String) : Option JValue :=
  match parseJ (s.toList.length + 1) .value s.toList with
  | some (.value v, rest) => if skipWs rest = [] then some v else none
  | _ => none

/-! ## Python dynamic semantics on parsed values

`json.loads` can return any JSON value, and `planner.py` then applies dynamic
operations (`in`, item access, item assignment, `len`, iteration) to it.
These raise `TypeError` on the wrong runtime type; `Except String` models
the raised exception. -/

/-- Association-list lookup (Python dict access by key). -/
def alookup (fields : List (String × α)) (k : String) : Option α :=
  match fields with
  | [] => none
  | (k', v) :: rest => if k' = k then some v else alookup rest k

/-- Association-list update (Python dict item assignment: overwrite in place,
    else append; insertion order preserved, as for Python dicts). -/
def aset (fields : List (String × α)) (k : String) (v : α) : List (String × α) :=
  match fields with
  | [] => [(k, v)]
  | (k', v') :: rest => if k' = k then (k, v) :: rest else (k', v') :: aset rest k v

/-- `JValue` Boolean equality (Python `==` restricted to JSON values; the
    cross-type numeric equalities `True == 1` etc. are immaterial here since
    membership is only ever tested against the string `"error"`). -/
def jeq : JValue → JValue → Bool
  | .null, .null => true
  | .bool a, .bool b => a = b
  | .num a, .num b => a = b
  | .str a, .str b => a = b
  | .arr a, .arr b => jeqList a b
  | .obj a, .obj b => jeqFields a b
  | _, _ => false
where
  jeqList : List JValue → List JValue → Bool
    | [], [] => true
    | a :: as', b :: bs' => jeq a b && jeqList as' bs'
    | _, _ => false
  jeqFields : List (String × JValue) → List (String × JValue) → Bool
    | [], [] => true
    | (k, a) :: as', (k', b) :: bs' => k = k' && jeq a b && jeqFields as' bs'
    | _, _ => false

/-- Python `key in v`: key membership for dicts, substring for strings,
    element membership for lists; `TypeError` otherwise. -/
def pyContains (v : JValue) (key : String) : Except String Bool :=
  match v with
  | .obj fields => .ok ((alookup fields key).isSome)
  | .str s => .ok (strContains s key)
  | .arr xs => .ok (xs.any (fun x => jeq x (.str key)))
  | _ => .error "TypeError: argument of type is not iterable"

/-- Python `v[key] = x` for a string key: only dicts support it. -/
def pySetItem (v : JValue) (key : String) (x : JValue) : Except String JValue :=
  match v with
  | .obj fields => .ok (.obj (aset fields key x))
  | _ => .error "TypeError: object does not support item assignment"

/-- Python `v[key]` for a string key. -/
def pyGetItem (v : JValue) (key : String) : Except String JValue :=
  match v with
  | .obj fields =>
    match alookup fields key with
    | some x => .ok x
    | none => .error "KeyError"
  | _ => .error "TypeError: indices must be integers"

/-- Python `len(v)`. -/
def pyLen (v : JValue) : Except String Nat :=
  match v with
  | .str s => .ok s.length
  | .arr xs => .ok xs.length
  | .obj fields => .ok fields.length
  | _ => .error "TypeError: object has no len"

/-- Python iteration over `v` (dicts yield their keys, strings their
    characters). -/
def pyIter (v : JValue) : Except String (List JValue) :=
  match v with
  | .arr xs => .ok xs
  | .str s => .ok (s.toList.map (fun c => .str (String.mk [c])))
  | .obj fields => .ok (fields.map (fun kv => .str kv.1))
  | _ => .error "TypeError: object is not iterable"

/-! ## `utils.safe_json_parse` -/

/-- The fallback dictionary `safe_json_parse` builds when parsing fails
    (`utils.py` lines 94-98; the `timestamp` field is `datetime.now()` I/O
    and is omitted — no consumer reads it). -/
def jsonErrorObj (text : String) : JValue :=
  .obj [("error", .str "JSON解析失败"), ("raw_text", .str text)]

/-- `re.search(r'\x7b.*\x7d', text, re.DOTALL)` with the greedy `.*`: the
    fragment from the first `\x7b` to the last `\x7d`, when the latter comes
    after the former. -/
def extractBraces (s : String) : Option String :=
  let cs := s.toList
  match cs.findIdx? (· = '\x7b'), (cs.reverse.findIdx? (· = '\x7d')) with
  | some i, some k =>
    let j := cs.length - 1 - k
    if i < j then some (String.mk ((cs.drop i).take (j - i + 1))) else none
  | _, _ => none

/-- `utils.safe_json_parse`: strict parse, then retry on the outermost
    brace-delimited fragment, then the tagged error dictionary.  Total: the
    error dictionary is itself a value, never a raise. -/
def safe_json_parse (text : String) : JValue :=
  match jsonLoads text with
  | some v => v
  | none =>
    match extractBraces text with
    | some fragment =>
      match jsonLoads fragment with
      | some v => v
      | none => jsonErrorObj text
    | none => jsonErrorObj text

/-! ## `planner.SimpleDynamicPlanner` -/

namespace SimpleDynamicPlanner

/-- `SimpleDynamicPlanner._guess_tool_type`. -/
def guess_tool_type (description : String) : String :=
  let descLower := pyLower description
  if ["搜索", "查找", "检索", "search"].any (fun w => strContains descLower w) then
    "search"
  else if ["计算", "数学", "统计", "calc"].any (fun w => strContains descLower w) then
    "calculator"
  else if ["分析", "处理", "analysis"].any (fun w => strContains descLower w) then
    "data_analysis"
  else if ["文件", "保存", "file"].any (fun w => strContains descLower w) then
    "file_ops"
  else
    "general"

/-- One synthesized task of `SimpleDynamicPlanner._fallback_parse`. -/
def fallbackTask (n : Nat) (line : String) : JValue :=
  .obj [("id", .str ("task_" ++ toString n)),
        ("description", .str (pyTake 200 line)),
        ("tool_type", .str (guess_tool_type line)),
        ("priority", .str "normal")]

/-- The line-scanning loop of `_fallback_parse`: one task per stripped line
    that is non-empty, not a `#` comment, and longer than 10 characters.
    `n` counts tasks accumulated so far (`len(tasks)`). -/
def fallbackTasks : List String → Nat → List JValue
  | [], _ => []
  | l :: ls, n =>
    let line := pyStrip l
    if line ≠ "" && !(pyStartsWith line "#") && line.length > 10 then
      fallbackTask (n + 1) line :: fallbackTasks ls (n + 1)
    else
      fallbackTasks ls n

/-- `SimpleDynamicPlanner._fallback_parse`: degraded text parsing used when
    JSON parsing failed. -/
def fallback_parse (response : String) : JValue :=
  let tasks := fallbackTasks (pySplitLines response) 0
  .obj [("tasks", .arr (if tasks.isEmpty then
          [.obj [("id", .str "task_1"),
                 ("description", .str (pyTake 200 response)),
                 ("tool_type", .str "general"),
                 ("priority", .str "normal")]]
        else tasks)),
        ("strategy", .str "sequential"),
        ("estimated_time", .num (toString (if tasks.isEmpty then 30 else tasks.length * 30)))]

/-- The per-task loop of `_validate_and_enhance_plan` (`for i, task in
    enumerate(plan["tasks"])`), with the dynamic `TypeError`s that non-dict
    task entries provoke. -/
def enhanceTasks (i : Nat) : List JValue → Except String (List JValue)
  | [] => .ok []
  | t :: ts => do
    let hasId ← pyContains t "id"
    let t ← if hasId then pure t else pySetItem t "id" (.str ("task_" ++ toString (i + 1)))
    let hasDesc ← pyContains t "description"
    let t ← if hasDesc then pure t else
      pySetItem t "description" (.str ("子任务 " ++ toString (i + 1)))
    let hasTool ← pyContains t "tool_type"
    let t ← if hasTool then pure t else do
      let d ← pyGetItem t "description"
      match d with
      | .str s => pySetItem t "tool_type" (.str (guess_tool_type s))
      | _ => Except.error "AttributeError: object has no attribute lower"
    let hasPrio ← pyContains t "priority"
    let t ← if hasPrio then pure t else pySetItem t "priority" (.str "normal")
    let rest ← enhanceTasks (i + 1) ts
    pure (t :: rest)

/-- `SimpleDynamicPlanner._validate_and_enhance_plan`, with the dynamic
    semantics of each Python operation it performs on the parsed value. -/
def validate_and_enhance_plan (plan : JValue) : Except String JValue := do
  let hasTasks ← pyContains plan "tasks"
  let plan ← if hasTasks then pure plan else pySetItem plan "tasks" (.arr [])
  let hasStrategy ← pyContains plan "strategy"
  let plan ← if hasStrategy then pure plan else pySetItem plan "strategy" (.str "sequential")
  let hasEst ← pyContains plan "estimated_time"
  let plan ← if hasEst then pure plan else do
    let tasks ← pyGetItem plan "tasks"
    let n ← pyLen tasks
    pySetItem plan "estimated_time" (.num (toString (n * 30)))
  let tasks ← pyGetItem plan "tasks"
  let elems ← pyIter tasks
  let newElems ← enhanceTasks 0 elems
  pySetItem plan "tasks" (.arr newElems)

/-- `SimpleDynamicPlanner._parse_plan`: `safe_json_parse`, then either the
    text fallback (when the tagged `"error"` marker is present) or
    validation of the parsed value.  An `Except.error` is a propagated
    Python exception. -/
def parse_plan (response : String) : Except String JValue := do
  let parsed := safe_json_parse response
  let hasError ← pyContains parsed "error"
  if hasError then
    pure (fallback_parse response)
  else
    validate_and_enhance_plan parsed

/-- `SimpleDynamicPlanner.plan`, as a function of the generator's response.
    The method builds a prompt (template selection + formatting), calls the
    generator, parses the response with `_parse_plan`, and appends a history
    entry.  The prompt only determines which response the generator returns,
    and every theorem below quantifies over all responses; the history entry
    records the plan without modifying it.  The returned plan is therefore
    exactly `_parse_plan response`. -/
def plan (_goal : String) (response : String) : Except String JValue :=
  parse_plan response

end SimpleDynamicPlanner

/-! ## `factory.SimpleActorFactory` -/

namespace SimpleActorFactory

/-- The keys of `_init_agent_templates` (the three built-in role templates). -/
def templateKeys : List String := ["analyst", "executor", "researcher"]

/-- Analyst keyword set of `_select_agent_type`. -/
def analystKeywords : List String :=
  ["分析", "计算", "推理", "统计", "评估", "比较", "研究",
   "analysis", "calculate", "reasoning", "statistics", "evaluate"]

/-- Executor keyword set of `_select_agent_type`. -/
def executorKeywords : List String :=
  ["执行", "操作", "运行", "处理", "生成", "创建", "构建", "实施",
   "execute", "operate", "run", "process", "generate", "create", "build"]

/-- Researcher keyword set of `_select_agent_type`. -/
def researcherKeywords : List String :=
  ["搜索", "查找", "收集", "整理", "总结", "调研", "探索",
   "search", "find", "collect", "organize", "summarize", "research"]

/-- `sum(1 for kw in keywords if kw in desc_lower)`. -/
def keywordScore (keywords : List String) (descLower : String) : Nat :=
  keywords.countP (fun kw => strContains descLower kw)

/-- `SimpleActorFactory._select_agent_type`.  `task_type` is significant only
    when truthy (non-empty) and a known template key; otherwise the role with
    the highest keyword score is selected through the `>=` cascade. -/
def select_agent_type (taskDescription : String) (taskType : Option String) : String :=
  let byKeywords :=
    let descLower := pyLower taskDescription
    let analystScore := keywordScore analystKeywords descLower
    let executorScore := keywordScore executorKeywords descLower
    let researcherScore := keywordScore researcherKeywords descLower
    if analystScore ≥ executorScore && analystScore ≥ researcherScore then "analyst"
    else if executorScore ≥ researcherScore then "executor"
    else "researcher"
  match taskType with
  | some t => if t ≠ "" && templateKeys.contains t then t else byKeywords
  | none => byKeywords

end SimpleActorFactory

/-! ## `progress.SimpleProgressManager`

Timestamps (`datetime.now().isoformat()`) are threaded as explicit `now : Nat`
arguments.  `_save_state` writes the snapshot to disk; a failure there is
logged and never alters the in-memory state, so persistence is omitted.
`generate_task_id` derives the identifier from the wall clock; it is passed
in explicitly. -/

namespace SimpleProgressManager

/-- One task record (`create_task`'s dictionary). -/
structure PTask where
  id : String
  description : String
  type : String
  status : String
  priority : String
  subtasks : List String
  assignedAgent : Option String
  progress : Rat
  startTime : Option Nat
  endTime : Option Nat
  result : Option String
  errorMessage : Option String
  createdTime : Nat
  updatedTime : Nat
deriving Repr, DecidableEq

/-- One agent record (`assign_task`'s dictionary; `updated_time` is absent
    until the first assignment writes it). -/
structure PAgent where
  agentId : String
  status : String
  currentTask : Option String
  assignedTasks : List String
  completedTasks : List String
  failedTasks : List String
  createdTime : Nat
  updatedTime : Option Nat
deriving Repr, DecidableEq

/-- `system_stats` (the `created_time` field is immaterial to every claim and
    carried as a plain number). -/
structure SystemStats where
  createdTime : Nat
  totalTasks : Nat
  completedTasks : Nat
  failedTasks : Nat
  activeAgents : Nat
deriving Repr, DecidableEq

/-- In-memory state of a `SimpleProgressManager`. -/
structure MState where
  tasks : List (String × PTask)
  agents : List (String × PAgent)
  systemStats : SystemStats
deriving Repr, DecidableEq

/-- A fresh manager (no prior state file loaded). -/
def initState (now : Nat) : MState :=
  { tasks := [], agents := [],
    systemStats := { createdTime := now, totalTasks := 0, completedTasks := 0,
                     failedTasks := 0, activeAgents := 0 } }

/-- `SimpleProgressManager.create_task`.  `task_id` comes from
    `generate_task_id()` (wall clock) and is passed explicitly. -/
def create_task (s : MState) (taskId : String) (now : Nat) (description : String)
    (taskType : String) (subtasks : List String) (priority : String) : String × MState :=
  let task : PTask :=
    { id := taskId, description := description, type := taskType,
      status := "pending", priority := priority, subtasks := subtasks,
      assignedAgent := none, progress := 0, startTime := none, endTime := none,
      result := none, errorMessage := none, createdTime := now, updatedTime := now }
  (taskId,
   { s with tasks := aset s.tasks taskId task,
            systemStats := { s.systemStats with totalTasks := s.systemStats.totalTasks + 1 } })

/-- The common agent-mutation block of `assign_task` (lines 103-107). -/
def assignToAgent (agent : PAgent) (taskId : String) (now : Nat) : PAgent :=
  { agent with currentTask := some taskId, status := "working",
               assignedTasks := agent.assignedTasks ++ [taskId],
               updatedTime := some now }

/-- `SimpleProgressManager.assign_task`. -/
def assign_task (s : MState) (taskId agentId : String) (now : Nat) : Bool × MState :=
  match alookup s.tasks taskId with
  | none => (false, s)
  | some task =>
    if task.status ≠ "pending" then (false, s)
    else
      let task := { task with assignedAgent := some agentId, status := "running",
                              startTime := some now, updatedTime := now }
      match alookup s.agents agentId with
      | none =>
        let fresh : PAgent :=
          { agentId := agentId, status := "active", currentTask := some taskId,
            assignedTasks := [], completedTasks := [], failedTasks := [],
            createdTime := now, updatedTime := none }
        (true,
         { tasks := aset s.tasks taskId task,
           agents := aset s.agents agentId (assignToAgent fresh taskId now),
           systemStats := { s.systemStats with
                            activeAgents := s.systemStats.activeAgents + 1 } })
      | some agent =>
        (true,
         { s with tasks := aset s.tasks taskId task,
                  agents := aset s.agents agentId (assignToAgent agent taskId now) })

/-- The terminal statuses of `update_progress` line 135. -/
def isTerminalStatus (st : String) : Bool :=
  st = "completed" || st = "failed" || st = "cancelled"

/-- The status-change block of `update_progress` (lines 129-154): overwrite
    the status, and — only when the new status is terminal and `end_time` is
    still unset — stamp `end_time`, bump the matching counter, and release
    the assigned agent (Python truthiness: an empty `assigned_agent` string
    skips the agent update). -/
def applyStatusChange (s : MState) (taskId : String) (task : PTask) (st : String)
    (now : Nat) : PTask × SystemStats × List (String × PAgent) :=
  let task := { task with status := st }
  if isTerminalStatus st && task.endTime.isNone then
    let task := { task with endTime := some now }
    let stats :=
      if st = "completed" then
        { s.systemStats with completedTasks := s.systemStats.completedTasks + 1 }
      else if st = "failed" then
        { s.systemStats with failedTasks := s.systemStats.failedTasks + 1 }
      else s.systemStats
    let agents :=
      match task.assignedAgent with
      | some agentId =>
        if agentId ≠ "" then
          match alookup s.agents agentId with
          | some agent =>
            let agent := { agent with currentTask := none, status := "idle" }
            let agent :=
              if st = "completed" then
                { agent with completedTasks := agent.completedTasks ++ [taskId] }
              else if st = "failed" then
                { agent with failedTasks := agent.failedTasks ++ [taskId] }
              else agent
            aset s.agents agentId agent
          | none => s.agents
        else s.agents
      | none => s.agents
    (task, stats, agents)
  else
    (task, s.systemStats, s.agents)

/-- `SimpleProgressManager.update_progress`: the single mutation primitive.
    Each `None` argument skips its field, mirroring the source's sequence of
    `if ... is not None` blocks; the returned Bool is the `updated` flag. -/
def update_progress (s : MState) (taskId : String) (progress : Option Rat)
    (status : Option String) (result : Option String) (errorMessage : Option String)
    (now : Nat) : Bool × MState :=
  match alookup s.tasks taskId with
  | none => (false, s)
  | some task0 =>
    let task1 : PTask :=
      match progress with
      | some p => { task0 with progress := max 0 (min 100 p) }
      | none => task0
    let change : PTask × SystemStats × List (String × PAgent) :=
      match status with
      | some st => applyStatusChange s taskId task1 st now
      | none => (task1, s.systemStats, s.agents)
    let task3 : PTask :=
      match result with
      | some r => { change.1 with result := some r }
      | none => change.1
    let task4 : PTask :=
      match errorMessage with
      | some e => { task3 with errorMessage := some e }
      | none => task3
    let updated : Bool :=
      progress.isSome || status.isSome || result.isSome || errorMessage.isSome
    if updated then
      (true, { tasks := aset s.tasks taskId { task4 with updatedTime := now },
               agents := change.2.2, systemStats := change.2.1 })
    else
      (false, s)

/-- `SimpleProgressManager.complete_task`. -/
def complete_task (s : MState) (taskId : String) (result : String) (now : Nat) :
    Bool × MState :=
  update_progress s taskId (some 100) (some "completed") (some result) none now

/-- `SimpleProgressManager.fail_task`. -/
def fail_task (s : MState) (taskId : String) (errorMessage : String) (now : Nat) :
    Bool × MState :=
  update_progress s taskId none (some "failed") none (some errorMessage) now

/-- `SimpleProgressManager.cancel_task`. -/
def cancel_task (s : MState) (taskId : String) (reason : Option String) (now : Nat) :
    Bool × MState :=
  let errorMsg :=
    match reason with
    | some r => if r ≠ "" then "任务已取消: " ++ r else "任务已取消"
    | none => "任务已取消"
  update_progress s taskId none (some "cancelled") none (some errorMsg) now

theorem isTerminalStatus_completed : isTerminalStatus "completed" = true := by decide

theorem isTerminalStatus_failed : isTerminalStatus "failed" = true := by decide

/-! The operations named by claim C4, as a step relation over sequences. -/

/-- One Progress Tracker operation (`create_task`, `assign_task`,
    `update_progress`; the convenience wrappers are `update_progress`
    instances). -/
inductive POp where
  | create (taskId : String) (now : Nat) (description taskType : String)
           (subtasks : List String) (priority : String)
  | assign (taskId agentId : String) (now : Nat)
  | update (taskId : String) (progress : Option Rat) (status : Option String)
           (result : Option String) (errorMessage : Option String) (now : Nat)

/-- Apply one operation (dropping the returned value). -/
def applyOp (s : MState) : POp → MState
  | .create taskId now description taskType subtasks priority =>
    (create_task s taskId now description taskType subtasks priority).2
  | .assign taskId agentId now => (assign_task s taskId agentId now).2
  | .update taskId progress status result errorMessage now =>
    (update_progress s taskId progress status result errorMessage now).2

/-- Run a sequence of operations. -/
def runOps (s : MState) : List POp → MState
  | [] => s
  | op :: ops => runOps (applyOp s op) ops

/-- `generate_task_id` produces millisecond-wall-clock identifiers; a
    sequence is well formed when every `create` uses an identifier not
    already present (the source would otherwise silently overwrite the
    record). -/
def FreshRun : MState → List POp → Prop
  | _, [] => True
  | s, op :: ops =>
    (match op with
     | .create taskId _ _ _ _ _ => alookup s.tasks taskId = none
     | _ => True) ∧ FreshRun (applyOp s op) ops

/-- Modelled from the spec: the status-transition relation claim C4 asserts
    ("status only transitions pending→running→{completed|failed|cancelled},
    with cancellation reachable from pending or running") — used only to
    compare the claimed relation with the code's actual behaviour. -/
def specAllowedTransition (old new : String) : Bool :=
  (old = "pending" && new = "running") ||
  (old = "running" && (new = "completed" || new = "failed" || new = "cancelled")) ||
  (old = "pending" && new = "cancelled")

end SimpleProgressManager

/-! ## `utils.parse_response` -/

/-- The line scan of `utils.parse_response`: the last `思考:`/`Thought:` line
    fills the thought, the last `行动:`/`Action:` line fills the action,
    each taken after the first `:` and stripped. -/
def parseResponseLines (acc : String × String) : List String → String × String
  | [] => acc
  | l :: ls =>
    let line := pyStrip l
    let afterColon :=
      match pySplitOnce line ":" with
      | some p => pyStrip p.2
      | none => line
    if pyStartsWith line "思考:" || pyStartsWith line "Thought:" then
      parseResponseLines (afterColon, acc.2) ls
    else if pyStartsWith line "行动:" || pyStartsWith line "Action:" then
      parseResponseLines (acc.1, afterColon) ls
    else
      parseResponseLines acc ls

/-- `utils.parse_response`: extract `(thought, action)` from a ReAct-format
    response; absent labels yield empty strings. -/
def parse_response (response : String) : String × String :=
  parseResponseLines ("", "") (pySplitLines response)

/-! ## `actor.SimpleActor`

The generator is modelled by the sequence `gen : Nat → String` of responses
it returns at each loop iteration (the prompt built from persona, task,
steps and context only selects which sequence occurs, and every theorem
quantifies over all sequences).  Python `eval` inside the calculator tool is
modelled by an abstract evaluator `ev : String → Except String String`
(`Except.error` is a raised evaluation exception such as
`ZeroDivisionError`); the claims quantify over its behaviour. -/

namespace SimpleActor

/-- The chararacter class of the calculator's gate
    `re.match(r'^[0-9+\-*/().%\s]+$', expression)` (ASCII fragment of
    `\s`). -/
def calcAllowedChar (c : Char) : Bool :=
  isJsonDigit c || c = '+' || c = '-' || c = '*' || c = '/' || c = '(' || c = ')' ||
  c = '.' || c = '%' || c = ' ' || c = '\t' || c = '\n' || c = '\r' || c = '\x0b' || c = '\x0c'

/-- The calculator gate: the regex demands one or more allowed characters
    spanning the whole expression. -/
def calcExprValid (expression : String) : Bool :=
  expression ≠ "" && expression.toList.all calcAllowedChar

/-- `SimpleActor._tool_calculator`: gate the expression, evaluate it, and
    convert any evaluation exception to a textual result; the surrounding
    `try` also makes the reject branch total. -/
def tool_calculator (ev : String → Except String String) (expression : String) : String :=
  if calcExprValid expression then
    match ev expression with
    | .ok result => "计算结果: " ++ expression ++ " = " ++ result
    | .error e => "计算错误: " ++ e
  else
    "无效的数学表达式: " ++ expression

/-- `SimpleActor._tool_search` (simulated). -/
def tool_search (query : String) : String :=
  "搜索结果: 关于\x27" ++ query ++ "\x27的相关信息。[这是模拟结果，实际实现可集成真实搜索API]"

/-- `SimpleActor._tool_data_analysis` (simulated). -/
def tool_data_analysis (dataDescription : String) : String :=
  "数据分析结果: 对\x27" ++ dataDescription ++ "\x27进行了分析。[这是模拟结果，实际实现可集成数据分析库]"

/-- `SimpleActor._tool_file_ops` (simulated). -/
def tool_file_ops (operation : String) : String :=
  "文件操作结果: 执行了\x27" ++ operation ++ "\x27操作。[这是模拟结果，实际实现可进行真实文件操作]"

/-- `SimpleActor._tool_summarizer`. -/
def tool_summarizer (text : String) : String :=
  let summary := if text.length > 200 then pyTake 200 text ++ "..." else text
  "总结结果: " ++ summary

/-- `SimpleActor._tool_general`. -/
def tool_general (inputText : String) : String :=
  "处理结果: 已处理输入\x27" ++ pyTake 100 inputText ++ "...\x27"

/-- The Chinese tool-name mapping of `_parse_tool_call`. -/
def toolMapping : List (String × String) :=
  [("搜索", "search"), ("计算", "calculator"), ("分析", "data_analysis"),
   ("文件", "file_ops"), ("总结", "summarizer")]

/-- The keyword-guess fallthrough of `_parse_tool_call` (it receives the
    already-stripped action and returns it whole as the tool input). -/
def guessToolFromAction (action : String) : String × String :=
  let actionLower := pyLower action
  if ["搜索", "查找", "search"].any (fun kw => strContains actionLower kw) then
    ("search", action)
  else if ["计算", "数学", "calc"].any (fun kw => strContains actionLower kw) then
    ("calculator", action)
  else if ["分析", "analysis"].any (fun kw => strContains actionLower kw) then
    ("data_analysis", action)
  else
    ("general", action)

/-- `SimpleActor._parse_tool_call`: explicit `"tool: input"` syntax (Chinese
    name mapping, then the actor's declared tool list), else keyword guess. -/
def parse_tool_call (availableTools : List String) (action : String) : String × String :=
  let action := pyStrip action
  match pySplitOnce action ":" with
  | some parts =>
    let toolName := pyLower (pyStrip parts.1)
    let toolInput := pyStrip parts.2
    (match alookup toolMapping toolName with
     | some mapped => (mapped, toolInput)
     | none =>
       if availableTools.contains toolName then (toolName, toolInput)
       else guessToolFromAction action)
  | none => guessToolFromAction action

/-- `_init_tool_implementations` dispatch used by `_execute_action`: the six
    fixed implementations; any other resolved name becomes the direct
    "thought" echo.  Tool exceptions are caught at the call site; in this
    embedding the only exception source is the calculator's evaluator, which
    `tool_calculator` already converts. -/
def runTool (ev : String → Except String String) (toolName toolInput : String)
    (action : String) : String :=
  if toolName = "search" then tool_search toolInput
  else if toolName = "calculator" then tool_calculator ev toolInput
  else if toolName = "data_analysis" then tool_data_analysis toolInput
  else if toolName = "file_ops" then tool_file_ops toolInput
  else if toolName = "summarizer" then tool_summarizer toolInput
  else if toolName = "general" then tool_general toolInput
  else "思考结果: " ++ action

/-- `SimpleActor._execute_action`. -/
def execute_action (ev : String → Except String String) (availableTools : List String)
    (action : String) : String :=
  if action = "" then "无效行动"
  else
    let (toolName, toolInput) := parse_tool_call availableTools action
    runTool ev toolName toolInput action

/-- `SimpleActor._is_completion_response`. -/
def is_completion_response (response : String) : Bool :=
  pyStartsWith (pyStrip response) "完成:" || pyStartsWith (pyStrip response) "完成："

/-- `SimpleActor._extract_completion_result`. -/
def extract_completion_result (response : String) : String :=
  match pySplitOnce response "完成:" with
  | some p => pyStrip p.2
  | none =>
    match pySplitOnce response "完成：" with
    | some p => pyStrip p.2
    | none => pyStrip response

/-- `SimpleActor._should_continue`.  (Python evaluates
    `iteration < max_iterations - 2` over ℤ; for `iteration ≥ 0` this agrees
    with the ℕ computation, since a negative bound makes both sides false.) -/
def should_continue (actionResult : String) (iteration maxIterations : Nat) : Bool :=
  if strContains actionResult "失败" || strContains actionResult "错误" then
    iteration < maxIterations - 2
  else if ["完成", "成功", "结束", "completed", "finished"].any
      (fun signal => strContains (pyLower actionResult) signal) then
    false
  else
    true

/-- One recorded step of `_react_loop` (`timestamp` is I/O and omitted). -/
inductive Step where
  | completion (iteration : Nat) (response result : String)
  | act (iteration : Nat) (thought action result : String)
deriving Repr, DecidableEq

/-- The step's recorded thought (`step.get("thought", "N/A")`; a completion
    step carries none). -/
def Step.thoughtOr (default : String) : Step → String
  | .completion _ _ _ => default
  | .act _ thought _ _ => thought

/-- The step's recorded result (always present). -/
def Step.resultOf : Step → String
  | .completion _ _ result => result
  | .act _ _ _ result => result

/-- Whether the step is the terminal completion record. -/
def Step.isCompletion : Step → Bool
  | .completion _ _ _ => true
  | .act _ _ _ _ => false

/-- `SimpleActor._generate_summary`. -/
def generate_summary (taskDescription : String) (steps : List Step)
    (timeout : Bool) : String :=
  if steps.isEmpty then "无法完成任务，未执行任何步骤"
  else
    let header :=
      if timeout then
        "任务执行超时（" ++ toString steps.length ++ "步）: " ++ taskDescription ++ "\n\n"
      else
        "任务执行完成（" ++ toString steps.length ++ "步）: " ++ taskDescription ++ "\n\n"
    let body := steps.foldl (fun acc step =>
      acc ++ (if step.isCompletion then
                "最终结果: " ++ step.resultOf ++ "\n"
              else
                "- " ++ pyTake 100 (step.thoughtOr "N/A") ++ "\n")) "执行过程:\n"
    let tail :=
      match steps.getLast? with
      | some lastStep =>
        if lastStep.isCompletion then "\n最终输出: " ++ lastStep.resultOf
        else "\n最新结果: " ++ pyTake 200 lastStep.resultOf
      | none => ""
    header ++ body ++ tail

/-- Result of `_react_loop`: the returned string plus the recorded steps. -/
structure ReactResult where
  result : String
  steps : List Step
deriving Repr, DecidableEq

/-- The loop of `SimpleActor._react_loop`, structurally recursive on the
    remaining iteration budget (`iteration + remaining = max_iterations` at
    every call).  The `context["last_action"]/["last_result"]` updates feed
    only the next prompt and are absorbed into the quantified generator
    sequence. -/
def reactLoopAux (ev : String → Except String String) (availableTools : List String)
    (gen : Nat → String) (taskDescription : String) (maxIterations : Nat) :
    Nat → Nat → List Step → ReactResult
  | 0, _, steps => { result := generate_summary taskDescription steps true, steps := steps }
  | remaining + 1, iteration, steps =>
    let response := gen iteration
    if is_completion_response response then
      let finalResult := extract_completion_result response
      let steps := steps ++ [Step.completion (iteration + 1) response finalResult]
      { result := finalResult, steps := steps }
    else
      let thoughtAction := parse_response response
      let actionResult := execute_action ev availableTools thoughtAction.2
      let steps := steps ++
        [Step.act (iteration + 1) thoughtAction.1 thoughtAction.2 actionResult]
      if should_continue actionResult iteration maxIterations then
        reactLoopAux ev availableTools gen taskDescription maxIterations
          remaining (iteration + 1) steps
      else
        { result := generate_summary taskDescription steps false, steps := steps }

/-- `SimpleActor._react_loop`. -/
def react_loop (ev : String → Except String String) (availableTools : List String)
    (gen : Nat → String) (taskDescription : String) (maxIterations : Nat) : ReactResult :=
  reactLoopAux ev availableTools gen taskDescription maxIterations maxIterations 0 []

/-- One execution-history record (`_log_execution_result`; timestamp and
    elapsed time are I/O and omitted). -/
structure ExecEntry where
  task : String
  result : String
  success : Bool
  agentType : String
deriving Repr, DecidableEq

/-- The rolling 20-entry bound of `_log_execution_result`. -/
def truncHistory (history : List ExecEntry) : List ExecEntry :=
  if history.length > 20 then history.drop (history.length - 20) else history

/-- Mutable fields of a `SimpleActor` touched by `execute`. -/
structure ActorState where
  status : String
  currentTask : Option String
  executionHistory : List ExecEntry
deriving Repr, DecidableEq

/-- `SimpleActor.execute`: set `working`/`current_task`, run the loop, record
    the outcome, and clear `current_task` in the `finally` block.  The react
    loop of this embedding is a total function, so the `except` branch
    (which would convert a raised exception into a `任务执行失败: `-prefixed
    string) is unreachable; the `finally` clearing applies to both
    branches. -/
def execute (ev : String → Except String String) (availableTools : List String)
    (agentType : String) (maxIterations : Nat) (st : ActorState)
    (gen : Nat → String) (taskDescription : String) : String × ActorState :=
  let st := { st with status := "working", currentTask := some taskDescription }
  let r := react_loop ev availableTools gen taskDescription maxIterations
  let entry : ExecEntry :=
    { task := pyTake 200 taskDescription, result := pyTake 500 r.result,
      success := true, agentType := agentType }
  let st := { st with status := "completed",
                      executionHistory := truncHistory (st.executionHistory ++ [entry]) }
  (r.result, { st with currentTask := none })

/-- A concrete evaluator (always returning `"0"`) used to instantiate the
    quantified theorems at specific inputs. -/
def evalStub : String → Except String String := fun _ => Except.ok "0"

end SimpleActor

/-! ## Helper lemmas -/

theorem alookup_aset_self (l : List (String × α)) (k : String) (v : α) :
    alookup (aset l k v) k = some v := by
  induction l with
  | nil => simp [aset, alookup]
  | cons hd tl ih =>
    obtain ⟨k', v'⟩ := hd
    by_cases h : k' = k
    · simp [aset, alookup, h]
    · simp [aset, alookup, h, ih]

theorem alookup_aset_ne (l : List (String × α)) (k k' : String) (v : α)
    (h : k' ≠ k) : alookup (aset l k v) k' = alookup l k' := by
  have h' : ¬ (k = k') := fun hk => h hk.symm
  induction l with
  | nil => simp [aset, alookup, h']
  | cons hd tl ih =>
    obtain ⟨k₀, v₀⟩ := hd
    by_cases h₀ : k₀ = k
    · subst h₀
      simp [aset, alookup, h']
    · simp only [aset, if_neg h₀]
      by_cases h₁ : k₀ = k'
      · simp [alookup, h₁]
      · simp [alookup, h₁, ih]

theorem ifEmpty_singleton_ne_nil (l : List α) (d : α) :
    (if l.isEmpty then [d] else l) ≠ [] := by
  cases l <;> simp

/-! ## Claims about the Planner (C1, C2) -/

/-- Claim C1, counterexample: a generator output that is a valid JSON object
    with no `tasks` key is parsed successfully, and `Planner.plan` returns a
    plan whose task list is empty — no fallback task is synthesized. -/
theorem C1_counterexample :
    SimpleDynamicPlanner.plan "分析数据" "\x7b\"strategy\": \"sequential\"\x7d" =
      Except.ok (JValue.obj [("strategy", JValue.str "sequential"),
        ("tasks", JValue.arr []), ("estimated_time", JValue.num "0")]) := by
  rfl

/-- Claim C1, amended: whenever the generator's output cannot be parsed as
    JSON (i.e. `safe_json_parse` returns its tagged error dictionary),
    `Planner.plan` returns the fallback plan, whose task list is non-empty
    (one task per qualifying text line, or a single synthesized fallback
    task).  When the output parses as a JSON object lacking a non-empty
    `tasks` entry, however, the returned task list is empty. -/
theorem C1_plan_nonempty_on_parse_failure (goal response : String)
    (h : pyContains (safe_json_parse response) "error" = Except.ok true) :
    ∃ tasks : List JValue,
      SimpleDynamicPlanner.plan goal response =
        Except.ok (SimpleDynamicPlanner.fallback_parse response) ∧
      pyGetItem (SimpleDynamicPlanner.fallback_parse response) "tasks" =
        Except.ok (JValue.arr tasks) ∧
      tasks ≠ [] := by
  refine ⟨(if (SimpleDynamicPlanner.fallbackTasks (pySplitLines response) 0).isEmpty then
      [JValue.obj [("id", JValue.str "task_1"),
        ("description", JValue.str (pyTake 200 response)),
        ("tool_type", JValue.str "general"), ("priority", JValue.str "normal")]]
    else SimpleDynamicPlanner.fallbackTasks (pySplitLines response) 0), ?_, ?_, ?_⟩
  · show SimpleDynamicPlanner.parse_plan response = _
    simp only [SimpleDynamicPlanner.parse_plan, h]
    rfl
  · simp [SimpleDynamicPlanner.fallback_parse, pyGetItem, alookup]
  · exact ifEmpty_singleton_ne_nil _ _

/-- Claim C1 witness. -/
theorem C1_plan_nonempty_on_parse_failure_witness :
    ∃ tasks : List JValue,
      SimpleDynamicPlanner.plan "目标" "not json" =
        Except.ok (SimpleDynamicPlanner.fallback_parse "not json") ∧
      pyGetItem (SimpleDynamicPlanner.fallback_parse "not json") "tasks" =
        Except.ok (JValue.arr tasks) ∧
      tasks ≠ [] :=
  C1_plan_nonempty_on_parse_failure "目标" "not json" (by rfl)

/-- Claim C2, counterexample: the generator output `"5"` is valid JSON (so
    not a `safe_json_parse` failure), but `Planner.plan` then raises
    `TypeError` at `"error" in parsed` — an exception not raised by the
    generator invocation. -/
theorem C2_counterexample :
    SimpleDynamicPlanner.plan "分析数据" "5" =
      Except.error "TypeError: argument of type is not iterable" := by
  rfl

/-- Claim C2, amended: `Planner.plan` never raises when the generator's
    output cannot be parsed as JSON (`safe_json_parse` returns its tagged
    error dictionary): it returns the fallback plan.  A parseable JSON
    value that is not an object (or an object with ill-typed fields) can,
    however, make the validation step raise `TypeError`. -/
theorem C2_no_raise_on_parse_failure (goal response : String)
    (h : pyContains (safe_json_parse response) "error" = Except.ok true) :
    SimpleDynamicPlanner.plan goal response =
      Except.ok (SimpleDynamicPlanner.fallback_parse response) := by
  show SimpleDynamicPlanner.parse_plan response = _
  simp only [SimpleDynamicPlanner.parse_plan, h]
  rfl

/-- Claim C2 witness. -/
theorem C2_no_raise_on_parse_failure_witness :
    SimpleDynamicPlanner.plan "目标" "&& malformed &&" =
      Except.ok (SimpleDynamicPlanner.fallback_parse "&& malformed &&") :=
  C2_no_raise_on_parse_failure "目标" "&& malformed &&" (by rfl)

/-! ## Claim about the Actor Factory (C3) -/

/-- Claim C3, counterexample: for a task description in which all three
    keyword scores are zero, `_select_agent_type` selects `analyst` (the
    `>=` cascade lets analyst win the all-zero tie), not `researcher`. -/
theorem C3_counterexample :
    SimpleActorFactory.keywordScore SimpleActorFactory.analystKeywords (pyLower "做一件事") = 0 ∧
    SimpleActorFactory.keywordScore SimpleActorFactory.executorKeywords (pyLower "做一件事") = 0 ∧
    SimpleActorFactory.keywordScore SimpleActorFactory.researcherKeywords (pyLower "做一件事") = 0 ∧
    SimpleActorFactory.select_agent_type "做一件事" none = "analyst" := by
  refine ⟨by decide, by decide, by decide, by decide⟩

/-- Claim C3, amended: when no explicit `task_type` matches a known role,
    the role with the strictly highest keyword-overlap score is chosen, and
    ties are broken in the priority order analyst > executor > researcher;
    consequently, when all three scores are zero the selected role is
    `analyst` (not `researcher`). -/
theorem C3_role_selection (taskDescription : String) (taskType : Option String)
    (htt : ∀ t, taskType = some t →
      (t ≠ "" && SimpleActorFactory.templateKeys.contains t) = false) :
    (SimpleActorFactory.keywordScore SimpleActorFactory.analystKeywords
        (pyLower taskDescription) ≥
      SimpleActorFactory.keywordScore SimpleActorFactory.executorKeywords
        (pyLower taskDescription) ∧
     SimpleActorFactory.keywordScore SimpleActorFactory.analystKeywords
        (pyLower taskDescription) ≥
      SimpleActorFactory.keywordScore SimpleActorFactory.researcherKeywords
        (pyLower taskDescription) →
      SimpleActorFactory.select_agent_type taskDescription taskType = "analyst") ∧
    (SimpleActorFactory.keywordScore SimpleActorFactory.executorKeywords
        (pyLower taskDescription) >
      SimpleActorFactory.keywordScore SimpleActorFactory.analystKeywords
        (pyLower taskDescription) ∧
     SimpleActorFactory.keywordScore SimpleActorFactory.executorKeywords
        (pyLower taskDescription) ≥
      SimpleActorFactory.keywordScore SimpleActorFactory.researcherKeywords
        (pyLower taskDescription) →
      SimpleActorFactory.select_agent_type taskDescription taskType = "executor") ∧
    (SimpleActorFactory.keywordScore SimpleActorFactory.researcherKeywords
        (pyLower taskDescription) >
      SimpleActorFactory.keywordScore SimpleActorFactory.analystKeywords
        (pyLower taskDescription) ∧
     SimpleActorFactory.keywordScore SimpleActorFactory.researcherKeywords
        (pyLower taskDescription) >
      SimpleActorFactory.keywordScore SimpleActorFactory.executorKeywords
        (pyLower taskDescription) →
      SimpleActorFactory.select_agent_type taskDescription taskType = "researcher") := by
  have hsel : SimpleActorFactory.select_agent_type taskDescription taskType =
      (if SimpleActorFactory.keywordScore SimpleActorFactory.analystKeywords
            (pyLower taskDescription) ≥
          SimpleActorFactory.keywordScore SimpleActorFactory.executorKeywords
            (pyLower taskDescription) &&
          SimpleActorFactory.keywordScore SimpleActorFactory.analystKeywords
            (pyLower taskDescription) ≥
          SimpleActorFactory.keywordScore SimpleActorFactory.researcherKeywords
            (pyLower taskDescription) then "analyst"
       else if SimpleActorFactory.keywordScore SimpleActorFactory.executorKeywords
            (pyLower taskDescription) ≥
          SimpleActorFactory.keywordScore SimpleActorFactory.researcherKeywords
            (pyLower taskDescription) then "executor"
       else "researcher") := by
    cases taskType with
    | none => rfl
    | some t =>
      simp only [SimpleActorFactory.select_agent_type]
      rw [htt t rfl]
      simp
  refine ⟨fun hc => ?_, fun hc => ?_, fun hc => ?_⟩
  · rw [hsel]
    simp [hc.1, hc.2]
  · rw [hsel]
    have h1 : ¬ (SimpleActorFactory.keywordScore SimpleActorFactory.analystKeywords
        (pyLower taskDescription) ≥
      SimpleActorFactory.keywordScore SimpleActorFactory.executorKeywords
        (pyLower taskDescription)) := by omega
    simp [h1, hc.2]
  · rw [hsel]
    have h1 : ¬ (SimpleActorFactory.keywordScore SimpleActorFactory.analystKeywords
        (pyLower taskDescription) ≥
      SimpleActorFactory.keywordScore SimpleActorFactory.researcherKeywords
        (pyLower taskDescription)) := by omega
    have h2 : ¬ (SimpleActorFactory.keywordScore SimpleActorFactory.executorKeywords
        (pyLower taskDescription) ≥
      SimpleActorFactory.keywordScore SimpleActorFactory.researcherKeywords
        (pyLower taskDescription)) := by omega
    simp [h1, h2]

/-- Claim C3 witness. -/
theorem C3_role_selection_witness :
    SimpleActorFactory.select_agent_type "分析数据" none = "analyst" :=
  (C3_role_selection "分析数据" none (by simp)).1 (by refine ⟨by decide, by decide⟩)

/-! ## Claims about the Progress Tracker (C4, C5, C6, C9) -/

namespace SimpleProgressManager

/-- `create_task` with a fresh identifier preserves a task's `end_time`. -/
theorem create_task_endTime (s : MState) (taskId : String) (now : Nat)
    (description taskType : String) (subtasks : List String) (priority : String)
    (tid : String) (t : PTask) (v : Nat)
    (hfresh : alookup s.tasks taskId = none)
    (hlk : alookup s.tasks tid = some t) (hv : t.endTime = some v) :
    ∃ t', alookup (create_task s taskId now description taskType subtasks
        priority).2.tasks tid = some t' ∧ t'.endTime = some v := by
  have hne : tid ≠ taskId := by
    intro he
    rw [he, hfresh] at hlk
    exact Option.noConfusion hlk
  exact ⟨t, by simp [create_task, alookup_aset_ne _ _ _ _ hne, hlk], hv⟩

/-- `assign_task` preserves every task's `end_time`. -/
theorem assign_task_endTime (s : MState) (taskId agentId : String) (now : Nat)
    (tid : String) (t : PTask) (v : Nat)
    (hlk : alookup s.tasks tid = some t) (hv : t.endTime = some v) :
    ∃ t', alookup (assign_task s taskId agentId now).2.tasks tid = some t' ∧
      t'.endTime = some v := by
  unfold assign_task
  split
  · exact ⟨t, hlk, hv⟩
  · rename_i task hlk'
    split
    · exact ⟨t, hlk, hv⟩
    · by_cases heq : tid = taskId
      · subst heq
        have ht : task = t := by
          rw [hlk'] at hlk
          exact Option.some.inj hlk
        subst ht
        cases alookup s.agents agentId with
        | none => exact ⟨_, alookup_aset_self _ _ _, by simpa using hv⟩
        | some agent => exact ⟨_, alookup_aset_self _ _ _, by simpa using hv⟩
      · cases alookup s.agents agentId with
        | none =>
          exact ⟨t, by simpa [alookup_aset_ne _ _ _ _ heq] using hlk, hv⟩
        | some agent =>
          exact ⟨t, by simpa [alookup_aset_ne _ _ _ _ heq] using hlk, hv⟩

/-- The status-change block never modifies an already-set `end_time`. -/
theorem applyStatusChange_endTime (s : MState) (taskId : String) (task : PTask)
    (st : String) (now : Nat) (v : Nat) (hv : task.endTime = some v) :
    (applyStatusChange s taskId task st now).1.endTime = some v := by
  simp [applyStatusChange, hv]

/-- `update_progress` never modifies an already-set `end_time` (of the
    updated task or of any other). -/
theorem update_progress_endTime (s : MState) (taskId : String) (pr : Option Rat)
    (st re em : Option String) (now : Nat) (tid : String) (t : PTask) (v : Nat)
    (hlk : alookup s.tasks tid = some t) (hv : t.endTime = some v) :
    ∃ t', alookup (update_progress s taskId pr st re em now).2.tasks tid = some t' ∧
      t'.endTime = some v := by
  unfold update_progress
  cases hlk' : alookup s.tasks taskId with
  | none => exact ⟨t, hlk, hv⟩
  | some task0 =>
    have ht0 : tid = taskId → task0.endTime = some v := by
      intro heq
      subst heq
      rw [hlk'] at hlk
      rw [Option.some.inj hlk]
      exact hv
    have hT1 : ∀ (task5 : PTask) (stats2 : SystemStats)
        (agents2 : List (String × PAgent)) (updated4 : Bool),
        (tid = taskId → task5.endTime = some v) →
        ∃ t', alookup (if updated4 then
            (true, ({ tasks := aset s.tasks taskId task5,
                      agents := agents2, systemStats := stats2 } : MState))
          else (false, s)).2.tasks tid = some t' ∧ t'.endTime = some v := by
      intro task5 stats2 agents2 updated4 h5
      cases updated4 with
      | false => exact ⟨t, hlk, hv⟩
      | true =>
        by_cases heq : tid = taskId
        · subst heq
          exact ⟨_, alookup_aset_self _ _ _, h5 rfl⟩
        · exact ⟨t, by simpa [alookup_aset_ne _ _ _ _ heq] using hlk, hv⟩
    rcases pr with _ | p <;> rcases st with _ | stv <;> rcases re with _ | rv <;>
        rcases em with _ | ev
    all_goals
      first
        | exact hT1 _ _ _ false (fun heq => ht0 heq)
        | exact hT1 _ _ _ true (fun heq => ht0 heq)
        | exact hT1 _ _ _ true (fun heq =>
            applyStatusChange_endTime s taskId _ _ now v (ht0 heq))

/-- One step of the C4 run preserves a set `end_time`. -/
theorem applyOp_endTime (s : MState) (op : POp) (tid : String) (t : PTask) (v : Nat)
    (hfresh : match op with
      | .create taskId _ _ _ _ _ => alookup s.tasks taskId = none
      | _ => True)
    (hlk : alookup s.tasks tid = some t) (hv : t.endTime = some v) :
    ∃ t', alookup (applyOp s op).tasks tid = some t' ∧ t'.endTime = some v := by
  cases op with
  | create taskId now description taskType subtasks priority =>
    exact create_task_endTime s taskId now description taskType subtasks priority
      tid t v hfresh hlk hv
  | assign taskId agentId now =>
    exact assign_task_endTime s taskId agentId now tid t v hlk hv
  | update taskId pr st re em now =>
    exact update_progress_endTime s taskId pr st re em now tid t v hlk hv

end SimpleProgressManager

open SimpleProgressManager in
/-- Claim C4, counterexample: `complete_task` on a freshly created (pending)
    task transitions it directly pending→completed, a transition the claimed
    relation (pending→running→terminal, with only cancellation reachable
    from pending) forbids. -/
theorem C4_counterexample :
    (alookup (SimpleProgressManager.create_task (SimpleProgressManager.initState 0)
        "t1" 0 "任务" "general" [] "normal").2.tasks "t1").map PTask.status =
      some "pending" ∧
    (alookup (SimpleProgressManager.complete_task
        (SimpleProgressManager.create_task (SimpleProgressManager.initState 0)
          "t1" 0 "任务" "general" [] "normal").2 "t1" "结果" 1).2.tasks "t1").map
      PTask.status = some "completed" ∧
    SimpleProgressManager.specAllowedTransition "pending" "completed" = false := by
  refine ⟨by rfl, by rfl, by rfl⟩

/-- Claim C4, amended: over every sequence of Progress Tracker operations
    whose `create` steps use fresh identifiers, a task's `end_time`, once
    set, is never modified again — and it is set (to the current time) by
    exactly the first `update_progress` that moves the task into a terminal
    status while `end_time` is still unset.  Status transitions themselves
    are unconstrained: `update_progress` writes whatever status it is given
    (and `complete_task`/`fail_task` apply to pending tasks directly). -/
theorem C4_end_time_once :
    (∀ (s : SimpleProgressManager.MState) (ops : List SimpleProgressManager.POp),
      SimpleProgressManager.FreshRun s ops →
      ∀ (tid : String) (t : SimpleProgressManager.PTask) (v : Nat),
        alookup s.tasks tid = some t → t.endTime = some v →
        ∃ t', alookup (SimpleProgressManager.runOps s ops).tasks tid = some t' ∧
          t'.endTime = some v) ∧
    (∀ (s : SimpleProgressManager.MState) (tid : String)
        (t : SimpleProgressManager.PTask) (st : String) (pr : Option Rat)
        (re em : Option String) (now : Nat),
      alookup s.tasks tid = some t → t.endTime = none →
      SimpleProgressManager.isTerminalStatus st = true →
      ∃ t', alookup (SimpleProgressManager.update_progress s tid pr (some st) re em
          now).2.tasks tid = some t' ∧ t'.endTime = some now) := by
  constructor
  · intro s ops
    induction ops generalizing s with
    | nil => exact fun _ tid t v hlk hv => ⟨t, hlk, hv⟩
    | cons op rest ih =>
      intro hfr tid t v hlk hv
      obtain ⟨hop, hrest⟩ := hfr
      obtain ⟨t', hlk', hv'⟩ :=
        SimpleProgressManager.applyOp_endTime s op tid t v hop hlk hv
      exact ih (SimpleProgressManager.applyOp s op) hrest tid t' v hlk' hv'
  · intro s tid t st pr re em now hlk hnone hterm
    unfold SimpleProgressManager.update_progress
    rw [hlk]
    rcases pr with _ | p <;> rcases re with _ | rv <;> rcases em with _ | ev <;>
      simp [SimpleProgressManager.applyStatusChange, hnone, hterm,
        alookup_aset_self]

open SimpleProgressManager in
/-- Claim C4 witness. -/
theorem C4_end_time_once_witness :
    ∃ t', alookup (SimpleProgressManager.runOps
        { tasks := [("t1",
            { id := "t1", description := "d", type := "general",
              status := "completed", priority := "normal", subtasks := [],
              assignedAgent := none, progress := 100, startTime := some 1,
              endTime := some 5, result := some "r", errorMessage := none,
              createdTime := 0, updatedTime := 5 })],
          agents := [],
          systemStats := { createdTime := 0,
                           totalTasks := 1,
                           completedTasks := 1,
                           failedTasks := 0,
                           activeAgents := 0 } }
        [SimpleProgressManager.POp.update "t1" none (some "failed") none none 9]).tasks
      "t1" = some t' ∧ t'.endTime = some 5 :=
  C4_end_time_once.1 _ _ (by simp [SimpleProgressManager.FreshRun]) "t1" _ 5 rfl rfl

open SimpleProgressManager in
/-- Claim C5, counterexample: for an existing task that has already been
    marked failed, calling `complete_task` twice sets `end_time` on neither
    call and increments the completed-task counter zero times — not exactly
    once. -/
theorem C5_counterexample :
    (alookup (SimpleProgressManager.fail_task
        (SimpleProgressManager.create_task (SimpleProgressManager.initState 0)
          "t1" 0 "任务" "general" [] "normal").2 "t1" "出错" 1).2.tasks "t1").map
      PTask.endTime = some (some 1) ∧
    (SimpleProgressManager.complete_task
        (SimpleProgressManager.complete_task
          (SimpleProgressManager.fail_task
            (SimpleProgressManager.create_task (SimpleProgressManager.initState 0)
              "t1" 0 "任务" "general" [] "normal").2 "t1" "出错" 1).2
          "t1" "结果" 2).2
        "t1" "结果" 3).2.systemStats.completedTasks = 0 := by
  refine ⟨by rfl, by rfl⟩

/-- Claim C5, amended: for every existing task whose `end_time` is still
    unset, calling `complete_task` twice in succession sets `end_time` on
    the first call only (the second leaves it at the first call's
    timestamp) and increments the completed-task counter exactly once
    across both calls.  For a task already in a terminal state (`end_time`
    set), neither call sets `end_time` or increments the counter. -/
theorem C5_complete_twice (s : SimpleProgressManager.MState) (tid : String)
    (t : SimpleProgressManager.PTask) (r1 r2 : String) (n1 n2 : Nat)
    (hlk : alookup s.tasks tid = some t) (hnone : t.endTime = none) :
    (∃ t1, alookup (SimpleProgressManager.complete_task s tid r1 n1).2.tasks tid =
        some t1 ∧ t1.endTime = some n1) ∧
    (∃ t2, alookup (SimpleProgressManager.complete_task
        (SimpleProgressManager.complete_task s tid r1 n1).2 tid r2 n2).2.tasks tid =
        some t2 ∧ t2.endTime = some n1) ∧
    (SimpleProgressManager.complete_task s tid r1 n1).2.systemStats.completedTasks =
      s.systemStats.completedTasks + 1 ∧
    (SimpleProgressManager.complete_task
        (SimpleProgressManager.complete_task s tid r1 n1).2 tid r2
        n2).2.systemStats.completedTasks = s.systemStats.completedTasks + 1 := by
  refine ⟨?_, ?_, ?_, ?_⟩ <;>
    simp [SimpleProgressManager.complete_task, SimpleProgressManager.update_progress,
      SimpleProgressManager.applyStatusChange, SimpleProgressManager.isTerminalStatus_completed,
      hlk, hnone, alookup_aset_self]

/-- Claim C6: `assign_task` on a missing or non-pending task returns false
    and leaves the whole state unchanged; on a pending task it returns
    true, sets the task running with `start_time` stamped and the agent
    recorded, and creates or updates the agent record, setting it working
    on this task and appending the task to its assigned list. -/
theorem C6_assign_task (s : SimpleProgressManager.MState) (tid aid : String)
    (now : Nat) :
    (alookup s.tasks tid = none →
      SimpleProgressManager.assign_task s tid aid now = (false, s)) ∧
    (∀ t, alookup s.tasks tid = some t → t.status ≠ "pending" →
      SimpleProgressManager.assign_task s tid aid now = (false, s)) ∧
    (∀ t, alookup s.tasks tid = some t → t.status = "pending" →
      (SimpleProgressManager.assign_task s tid aid now).1 = true ∧
      alookup (SimpleProgressManager.assign_task s tid aid now).2.tasks tid =
        some { t with assignedAgent := some aid, status := "running",
                      startTime := some now, updatedTime := now } ∧
      ∃ ag', alookup (SimpleProgressManager.assign_task s tid aid now).2.agents aid =
          some ag' ∧
        ag'.status = "working" ∧ ag'.currentTask = some tid ∧
        ag'.assignedTasks = (match alookup s.agents aid with
          | some ag => ag.assignedTasks
          | none => []) ++ [tid]) := by
  refine ⟨fun h => ?_, fun t hlk hst => ?_, fun t hlk hpend => ?_⟩
  · simp [SimpleProgressManager.assign_task, h]
  · simp [SimpleProgressManager.assign_task, hlk, hst]
  · have hne : ¬ (t.status ≠ "pending") := by simp [hpend]
    cases halk : alookup s.agents aid with
    | none =>
      refine ⟨?_, ?_,
        ⟨{ agentId := aid,
           status := "working",
           currentTask := some tid,
           assignedTasks := [tid],
           completedTasks := [],
           failedTasks := [],
           createdTime := now,
           updatedTime := some now }, ?_, rfl, rfl, ?_⟩⟩ <;>
        simp [SimpleProgressManager.assign_task, SimpleProgressManager.assignToAgent,
          hlk, hne, halk, alookup_aset_self]
    | some ag =>
      refine ⟨?_, ?_,
        ⟨{ ag with
           status := "working",
           currentTask := some tid,
           assignedTasks := ag.assignedTasks ++ [tid],
           updatedTime := some now }, ?_, rfl, rfl, ?_⟩⟩ <;>
        simp [SimpleProgressManager.assign_task, SimpleProgressManager.assignToAgent,
          hlk, hne, halk, alookup_aset_self]

/-- Claim C9: a further `update_progress` with a (different) terminal status
    on a task whose `end_time` is already set returns true, overwrites the
    status field, and leaves `end_time`, both terminal counters, and the
    whole agent collection (hence every agent's completed/failed lists)
    unchanged. -/
theorem C9_terminal_overwrite (s : SimpleProgressManager.MState) (tid : String)
    (t : SimpleProgressManager.PTask) (v : Nat) (st : String) (em : Option String)
    (now : Nat) (hlk : alookup s.tasks tid = some t) (hv : t.endTime = some v)
    (_hterm : SimpleProgressManager.isTerminalStatus st = true) :
    (SimpleProgressManager.update_progress s tid none (some st) none em now).1 =
      true ∧
    (SimpleProgressManager.update_progress s tid none (some st) none em now).2.agents
      = s.agents ∧
    (SimpleProgressManager.update_progress s tid none (some st) none em
      now).2.systemStats = s.systemStats ∧
    ∃ t', alookup (SimpleProgressManager.update_progress s tid none (some st) none
        em now).2.tasks tid = some t' ∧
      t'.status = st ∧ t'.endTime = some v := by
  refine ⟨?_, ?_, ?_, ?_⟩ <;>
    rcases em with _ | ev <;>
      simp [SimpleProgressManager.update_progress,
        SimpleProgressManager.applyStatusChange, hlk, hv, alookup_aset_self]

open SimpleProgressManager in
/-- Claim C9 witness. -/
theorem C9_terminal_overwrite_witness :
    (SimpleProgressManager.update_progress
      (SimpleProgressManager.complete_task
        (SimpleProgressManager.create_task (SimpleProgressManager.initState 0)
          "t1" 0 "任务" "general" [] "normal").2 "t1" "结果" 1).2
      "t1" none (some "failed") none (some "出错") 2).1 = true :=
  by exact (C9_terminal_overwrite _ "t1" _ 1 "failed" (some "出错") 2 (by rfl) (by rfl)
    isTerminalStatus_failed).1

/-- Claim C5 witness. -/
theorem C5_complete_twice_witness :
    (SimpleProgressManager.complete_task
        (SimpleProgressManager.complete_task
          (SimpleProgressManager.create_task (SimpleProgressManager.initState 0)
            "t1" 0 "任务" "general" [] "normal").2 "t1" "结果" 1).2
        "t1" "再次" 2).2.systemStats.completedTasks =
      (SimpleProgressManager.create_task (SimpleProgressManager.initState 0)
        "t1" 0 "任务" "general" [] "normal").2.systemStats.completedTasks + 1 :=
  by exact (C5_complete_twice _ "t1" _ "结果" "再次" 1 2 (by rfl) (by rfl)).2.2.2

/-- Claim C6 witness. -/
theorem C6_assign_task_witness :
    (SimpleProgressManager.assign_task
      (SimpleProgressManager.create_task (SimpleProgressManager.initState 0)
        "t1" 0 "任务" "general" [] "normal").2 "t1" "agent_1" 1).1 = true :=
  by exact ((C6_assign_task _ "t1" "agent_1" 1).2.2 _ (by rfl) (by rfl)).1

/-! ## Claims about the Execution Engine (C7, C8) -/

namespace SimpleActor

/-- A summary string is never empty: its header (or the no-steps message)
    has positive length. -/
theorem generate_summary_length_pos (task : String) (steps : List Step)
    (timeout : Bool) : 0 < (generate_summary task steps timeout).length := by
  unfold generate_summary
  split
  · decide
  · rw [String.length_append, String.length_append]
    have hpos : 0 < (if timeout then
        "任务执行超时（" ++ toString steps.length ++ "步）: " ++ task ++ "\n\n"
      else
        "任务执行完成（" ++ toString steps.length ++ "步）: " ++ task ++ "\n\n").length := by
      have h1 : ("任务执行超时（" : String).length = 7 := by decide
      have h2 : ("任务执行完成（" : String).length = 7 := by decide
      cases timeout <;> simp only [if_true, if_false, Bool.false_eq_true,
        String.length_append, h1, h2] <;> omega
    omega

/-- A summary string is never the empty string. -/
theorem generate_summary_ne_empty (task : String) (steps : List Step)
    (timeout : Bool) : generate_summary task steps timeout ≠ "" := by
  intro h
  have hpos := generate_summary_length_pos task steps timeout
  rw [h] at hpos
  simp at hpos

/-- The reasoning loop records at most one step per remaining iteration. -/
theorem reactLoopAux_steps_length (ev : String → Except String String)
    (tools : List String) (gen : Nat → String) (task : String) (mi : Nat) :
    ∀ (remaining iteration : Nat) (steps : List Step),
      (reactLoopAux ev tools gen task mi remaining iteration steps).steps.length ≤
        steps.length + remaining := by
  intro remaining
  induction remaining with
  | zero =>
    intro iteration steps
    simp [reactLoopAux]
  | succ r ih =>
    intro iteration steps
    simp only [reactLoopAux]
    split
    · simp
    · split
      · refine le_trans (ih (iteration + 1) _) ?_
        simp only [List.length_append, List.length_singleton]
        omega
      · simp

/-- When the generator never signals completion and every action result
    passes the continuation heuristic, the loop runs its full budget and
    returns the timeout summary. -/
theorem reactLoopAux_timeout (ev : String → Except String String)
    (tools : List String) (gen : Nat → String) (task : String) (mi : Nat) :
    ∀ (remaining iteration : Nat) (steps : List Step),
      iteration + remaining = mi →
      (∀ i, i < mi → is_completion_response (gen i) = false ∧
        should_continue (execute_action ev tools (parse_response (gen i)).2) i mi
          = true) →
      (reactLoopAux ev tools gen task mi remaining iteration steps).result =
        generate_summary task
          (reactLoopAux ev tools gen task mi remaining iteration steps).steps true ∧
      (reactLoopAux ev tools gen task mi remaining iteration steps).steps.length =
        steps.length + remaining := by
  intro remaining
  induction remaining with
  | zero =>
    intro iteration steps hsum hgen
    simp [reactLoopAux]
  | succ r ih =>
    intro iteration steps hsum hgen
    have hit : iteration < mi := by omega
    obtain ⟨hnc, hcont⟩ := hgen iteration hit
    simp only [reactLoopAux, hnc, hcont, Bool.false_eq_true, if_false, if_true]
    obtain ⟨h1, h2⟩ := ih (iteration + 1)
      (steps ++ [Step.act (iteration + 1) (parse_response (gen iteration)).1
        (parse_response (gen iteration)).2
        (execute_action ev tools (parse_response (gen iteration)).2)])
      (by omega) hgen
    refine ⟨h1, ?_⟩
    rw [h2, List.length_append]
    simp only [List.length_singleton]
    omega

/-- A non-completion exit of the loop carries a (non-empty) summary; an empty
    result can only come from a completion response with empty payload. -/
theorem reactLoopAux_empty_result (ev : String → Except String String)
    (tools : List String) (gen : Nat → String) (task : String) (mi : Nat) :
    ∀ (remaining iteration : Nat) (steps : List Step),
      (reactLoopAux ev tools gen task mi remaining iteration steps).result = "" →
      ∃ i, is_completion_response (gen i) = true ∧
        extract_completion_result (gen i) = "" := by
  intro remaining
  induction remaining with
  | zero =>
    intro iteration steps h
    simp only [reactLoopAux] at h
    exact absurd h (generate_summary_ne_empty task steps true)
  | succ r ih =>
    intro iteration steps h
    simp only [reactLoopAux] at h
    cases hc : is_completion_response (gen iteration) with
    | true =>
      rw [hc] at h
      simp only [if_true] at h
      exact ⟨iteration, hc, h⟩
    | false =>
      rw [hc] at h
      simp only [Bool.false_eq_true, if_false] at h
      cases hs : should_continue
          (execute_action ev tools (parse_response (gen iteration)).2) iteration mi with
      | true =>
        rw [hs] at h
        simp only [if_true] at h
        exact ih (iteration + 1) _ h
      | false =>
        rw [hs] at h
        simp only [Bool.false_eq_true, if_false] at h
        exact absurd h (generate_summary_ne_empty task _ false)

end SimpleActor

open SimpleActor in
/-- Claim C7, counterexample: a generator that always returns the
    non-completion response `行动: 完成了` makes the loop exit after its very
    first iteration with a summary tagged as completed, not as a timeout —
    the action result echoes the word `完成`, which the continuation
    heuristic treats as a stop signal. -/
theorem C7_counterexample :
    is_completion_response "行动: 完成了" = false ∧
    pyStartsWith (react_loop evalStub [] (fun _ => "行动: 完成了") "任务" 15).result
      "任务执行超时" = false ∧
    pyStartsWith (react_loop evalStub [] (fun _ => "行动: 完成了") "任务" 15).result
      "任务执行完成" = true := by
  refine ⟨by decide, by decide, by decide⟩

open SimpleActor in
/-- Claim C7, amended: `execute` performs at most `max_iterations` loop
    iterations (one recorded step each).  When the generator returns a
    non-completion response on every iteration *and* every action result
    passes the continuation check — it contains no stop-signal word
    (完成/成功/结束/completed/finished), and any result containing a failure
    marker (失败/错误) occurs only while more than two iterations of the
    budget remain — the loop runs all `max_iterations` iterations and the
    result is the timeout-tagged summary.  Otherwise the run can end early
    with a completed-tagged summary: either on a stop-signal word in an
    action result, or on a failure-marked result within the last two
    iterations of the budget (the reserved retry budget is exhausted). -/
theorem C7_iteration_budget (ev : String → Except String String)
    (tools : List String) (gen : Nat → String) (task : String) (mi : Nat) :
    (react_loop ev tools gen task mi).steps.length ≤ mi ∧
    ((∀ i, i < mi → is_completion_response (gen i) = false ∧
        should_continue (execute_action ev tools (parse_response (gen i)).2) i mi
          = true) →
      (react_loop ev tools gen task mi).result =
        generate_summary task (react_loop ev tools gen task mi).steps true ∧
      (react_loop ev tools gen task mi).steps.length = mi) := by
  constructor
  · have h := reactLoopAux_steps_length ev tools gen task mi mi 0 []
    simpa [react_loop] using h
  · intro hgen
    have h := reactLoopAux_timeout ev tools gen task mi mi 0 [] (by omega) hgen
    simpa [react_loop] using h

open SimpleActor in
/-- Claim C7 witness (the empty response never completes and never trips the
    heuristic, so a 2-iteration budget times out). -/
theorem C7_iteration_budget_witness :
    (react_loop evalStub [] (fun _ => "") "任务" 2).result =
      generate_summary "任务" (react_loop evalStub [] (fun _ => "") "任务" 2).steps
        true :=
  ((C7_iteration_budget evalStub [] (fun _ => "") "任务" 2).2 (by decide)).1

open SimpleActor in
/-- Claim C8, counterexample: when the generator returns the bare completion
    marker `完成:`, `execute` returns the empty string — not a non-empty
    result. -/
theorem C8_counterexample :
    (execute evalStub [] "analyst" 15
      { status := "idle", currentTask := none, executionHistory := [] }
      (fun _ => "完成:") "任务").1 = "" := by
  rfl

open SimpleActor in
/-- Claim C8, amended: `execute` always returns a string (the embedding of
    the loop is total, and the source's catch-all `except` converts any
    raised exception into an error-prefixed string rather than propagating
    it) and clears `current_task` on exit regardless of the outcome; the
    returned string is non-empty unless the generator produced a completion
    response whose extracted payload is empty. -/
theorem C8_execute_result (ev : String → Except String String)
    (tools : List String) (agentType : String) (mi : Nat) (st : ActorState)
    (gen : Nat → String) (task : String) :
    (execute ev tools agentType mi st gen task).2.currentTask = none ∧
    ((execute ev tools agentType mi st gen task).1 = "" →
      ∃ i, is_completion_response (gen i) = true ∧
        extract_completion_result (gen i) = "") := by
  constructor
  · rfl
  · intro h
    exact reactLoopAux_empty_result ev tools gen task mi mi 0 [] h

open SimpleActor in
/-- Claim C8 witness. -/
theorem C8_execute_result_witness :
    ∃ i, is_completion_response ((fun (_ : Nat) => "完成:") i) = true ∧
      extract_completion_result ((fun (_ : Nat) => "完成:") i) = "" :=
  (C8_execute_result evalStub [] "analyst" 15
    { status := "idle", currentTask := none, executionHistory := [] }
    (fun _ => "完成:") "任务").2 (by rfl)

/-! ## Claim about the calculator tool (C10) -/

/-- Claim C10: the calculator tool is total (always returns a string, an
    exception raised by the evaluation is caught).  An expression failing
    the character gate is rejected with the invalid-expression message and
    the evaluator is never consulted (the result is identical for every
    evaluator); on a gated expression, an evaluation error becomes the
    textual `计算错误` result and a successful evaluation the `计算结果`
    rendering. -/
theorem C10_calculator_guarded (ev ev' : String → Except String String)
    (expression : String) :
    (SimpleActor.calcExprValid expression = false →
      SimpleActor.tool_calculator ev expression =
        "无效的数学表达式: " ++ expression ∧
      SimpleActor.tool_calculator ev expression =
        SimpleActor.tool_calculator ev' expression) ∧
    (∀ e, SimpleActor.calcExprValid expression = true →
      ev expression = Except.error e →
      SimpleActor.tool_calculator ev expression = "计算错误: " ++ e) ∧
    (∀ v, SimpleActor.calcExprValid expression = true →
      ev expression = Except.ok v →
      SimpleActor.tool_calculator ev expression =
        "计算结果: " ++ expression ++ " = " ++ v) := by
  refine ⟨fun h => ?_, fun e h he => ?_, fun v h hv => ?_⟩
  · constructor <;> simp [SimpleActor.tool_calculator, h]
  · simp [SimpleActor.tool_calculator, h, he]
  · simp [SimpleActor.tool_calculator, h, hv]

/-- Claim C10 witness (division by zero becomes a textual error result). -/
theorem C10_calculator_guarded_witness :
    SimpleActor.tool_calculator (fun _ => Except.error "division by zero") "1/0" =
      "计算错误: " ++ "division by zero" :=
  (C10_calculator_guarded (fun _ => Except.error "division by zero")
    (fun _ => Except.ok "0") "1/0").2.1 "division by zero" (by rfl) rfl

end Aime
